import Mathlib

/-!
Shallow embedding of the camera acquisition and frame-capture logic of
`src/app/food-scanner/page.tsx` (the Camera Capture Controller of the spec).

The React component state (`useState` hooks) becomes `ScannerState`; the
browser-side resources (open device streams, `localStorage`, the video
element's `srcObject`) become `MediaWorld`.  The async functions
`startCamera`, `stopCamera` and `capturePhoto` become pure state-passing
functions parametrised by an environment describing how the browser
capabilities respond (`StartEnv`, `CaptureEnv`).  `startCamera` is split at
its `await` point into a pending phase (`startCameraPending`), the
continuation run when `getUserMedia` resolves (`startCameraResume`) and the
`catch` block (`startCameraCatch`), so that interleavings with `stopCamera`
can be expressed; `startCamera` itself is their sequential composition.
-/

namespace FoodScanner

/-- Permission states tracked by the `permissionState` hook
(`'prompt' | 'granted' | 'denied' | 'unknown'`). -/
inductive PermState
  | prompt
  | granted
  | denied
  | unknown
deriving DecidableEq, Repr

/-- The `scanMode` hook (`'upload' | 'camera'`). -/
inductive ScanMode
  | upload
  | camera
deriving DecidableEq, Repr

/-- An encoded still image produced by `canvas.toBlob(cb, mime, quality)`:
the blob carries the canvas raster, so its intrinsic dimensions are the
canvas dimensions at encode time.  `quality` is the 0-1 encoder quality
factor; `data` abstracts the encoded pixel content. -/
structure EncodedImage where
  width : Nat
  height : Nat
  mime : String
  quality : ℚ
  data : Nat
deriving DecidableEq, Repr

/-- A value of the `selectedImage` hook: either a user-uploaded `File`
(abstracted by an identifier) or the `File` built from a captured blob in
`capturePhoto` (`new File([blob], name, \x7btype\x7d)`). -/
inductive ImageFile
  | uploaded (id : Nat)
  | capturedFile (name : String) (mime : String) (img : EncodedImage)
deriving DecidableEq, Repr

/-- The component-local state of `FoodScannerPage`: one field per `useState`
hook that the camera logic reads or writes.  Device streams are named by
`Nat` identifiers. -/
structure ScannerState where
  selectedImage : Option ImageFile
  imagePreview : Option Nat
  scannedResult : Option Nat
  isScanning : Bool
  isCameraActive : Bool
  stream : Option Nat
  scanMode : ScanMode
  cameraError : Option String
  videoReady : Bool
  isRequestingCamera : Bool
  permissionState : PermState
deriving DecidableEq, Repr

/-- Browser-side resources: the identifiers of device streams whose tracks
are currently running (`openStreams`), a fresh-name supply for streams
handed out by `getUserMedia`, the `localStorage` entry
`camera-permission`, and the video element's `srcObject`. -/
structure MediaWorld where
  openStreams : List Nat
  nextId : Nat
  stored : Option PermState
  videoSrc : Option Nat
deriving DecidableEq, Repr

/-- The initial hook values of the component. -/
def initialState : ScannerState where
  selectedImage := none
  imagePreview := none
  scannedResult := none
  isScanning := false
  isCameraActive := false
  stream := none
  scanMode := ScanMode.upload
  cameraError := none
  videoReady := false
  isRequestingCamera := false
  permissionState := PermState.unknown

/-- A fresh browser world: no open streams, empty storage, detached video. -/
def initialWorld : MediaWorld where
  openStreams := []
  nextId := 0
  stored := none
  videoSrc := none

/-- The `stopCamera` handler: stops every track of the owned stream (removing it from
the open-stream set), clears the `stream` hook, resets the camera flags and
error, switches back to upload mode, and detaches the video element's
`srcObject` when the video element is mounted (`vp`). -/
def stopCamera (vp : Bool) (s : ScannerState) (w : MediaWorld) :
    ScannerState × MediaWorld :=
  let w := match s.stream with
    | some sid => { w with openStreams := w.openStreams.filter (fun x => x ≠ sid) }
    | none => w
  let s := { s with
    stream := none
    isCameraActive := false
    videoReady := false
    cameraError := none
    isRequestingCamera := false
    scanMode := ScanMode.upload }
  let w := if vp then { w with videoSrc := none } else w
  (s, w)

/-- How the `getUserMedia` request behaves: it resolves with a stream,
rejects with a DOM error (carrying `name` and `message`), or does not
settle within the 10-second bound. -/
inductive AccessOutcome
  | grant
  | reject (name : String) (msg : String)
  | pending
deriving DecidableEq, Repr

/-- Environment of one `startCamera` call: whether
`navigator.mediaDevices.getUserMedia` exists, how the access request
behaves, whether `videoRef.current` is mounted, and whether
`video.play()` followed by the `loadeddata` readiness event succeeds. -/
structure StartEnv where
  mediaSupported : Bool
  access : AccessOutcome
  videoPresent : Bool
  playOk : Bool
deriving DecidableEq, Repr

/-- Classification of a `startCamera` failure, mirroring the `if` chain of
the `catch` block. -/
inductive ErrClass
  | permissionDenied
  | deviceNotFound
  | notSupportedName
  | timedOut
  | generic (msg : String)
deriving DecidableEq, Repr

/-- How a `startCamera` call ends: normally, via the `catch` block with a
classified error, or never (suspended forever at an `await` that is not
raced against a timeout). -/
inductive StartOutcome
  | ok
  | err (c : ErrClass)
  | never
deriving DecidableEq, Repr

/-- Result of a `startCamera` call: outcome, final hook state, final
browser world, and whether the call armed the timeout race
(`Promise.race` with the 10-second timer). -/
structure StartResult where
  outcome : StartOutcome
  state : ScannerState
  world : MediaWorld
  racedTimeout : Bool
deriving DecidableEq, Repr

/-- The message of the rejection produced by the controller's own timeout
timer. -/
def timedOutMsg : String := "Camera access timed out. Please check permissions."

/-- Does the first character list start the second? -/
def charsPrefixOf : List Char → List Char → Bool
  | [], _ => true
  | _ :: _, [] => false
  | a :: as, b :: bs => (a == b) && charsPrefixOf as bs

/-- Does the second character list contain the first as a contiguous
substring? -/
def charsContain (needle : List Char) : List Char → Bool
  | [] => charsPrefixOf needle []
  | b :: bs => charsPrefixOf needle (b :: bs) || charsContain needle bs

/-- The check `error.message.includes("timed out")`. -/
def containsTimedOut (msg : String) : Bool :=
  charsContain "timed out".toList msg.toList

/-- The classification implicit in the `catch` block's `if` chain. -/
def classify (name msg : String) : ErrClass :=
  if name = "NotAllowedError" then ErrClass.permissionDenied
  else if name = "NotFoundError" then ErrClass.deviceNotFound
  else if name = "NotSupportedError" then ErrClass.notSupportedName
  else if containsTimedOut msg then ErrClass.timedOut
  else ErrClass.generic msg

/-- The user-facing `errorMessage` computed by the `catch` block. -/
def errMessageOf (name msg : String) : String :=
  if name = "NotAllowedError" then
    "Camera access denied. Please click the camera icon in your browser\x27s address bar and allow access, then try again."
  else if name = "NotFoundError" then "No camera found on this device."
  else if name = "NotSupportedError" then "Camera not supported in this browser."
  else if containsTimedOut msg then
    "Camera access timed out. Please ensure you click \"Allow\" when prompted for camera permissions."
  else "Could not access camera. " ++ msg

/-- The `catch` block of `startCamera` followed by its `finally`: updates
the permission hint (state and storage) only for `NotAllowedError`, records
the classified error message, marks the camera inactive and the request
finished.  Note that it does not stop any acquired stream and does not
clear the `stream` hook. -/
def startCameraCatch (s : ScannerState) (w : MediaWorld) (name msg : String)
    (raced : Bool) : StartResult :=
  let s := if name = "NotAllowedError"
    then { s with permissionState := PermState.denied } else s
  let w := if name = "NotAllowedError"
    then { w with stored := some PermState.denied } else w
  let s := { s with
    cameraError := some (errMessageOf name msg)
    isCameraActive := false
    isRequestingCamera := false }
  { outcome := StartOutcome.err (classify name msg), state := s, world := w,
    racedTimeout := raced }

/-- The synchronous prefix of `startCamera`, run before the `await` on the
access request: clears the error, resets readiness, marks the request
in flight. -/
def startCameraPending (s : ScannerState) : ScannerState :=
  { s with cameraError := none, videoReady := false, isRequestingCamera := true }

/-- The instant the access request resolves: a fresh device stream opens
(its tracks start running) before any component state is committed. -/
def streamArrivalWorld (w : MediaWorld) : MediaWorld :=
  { w with openStreams := w.openStreams ++ [w.nextId], nextId := w.nextId + 1 }

/-- The cleanup of the effect keyed on the `stream` hook
(`useEffect` returning `stream.getTracks().forEach(stop)` with dependency
`[stream]`): when a `setStream` call replaces `prev` and React commits the
update, the previous render's cleanup runs and stops the replaced stream's
tracks.  The commit happens during the awaits that follow the `setStream`
call (or right after the handler returns), so it is part of the call's
end state but strictly after the new stream has been opened and bound. -/
def streamCleanupOnReplace (prev : Option Nat) (w : MediaWorld) : MediaWorld :=
  match prev with
  | some old =>
      { w with openStreams := w.openStreams.filter (fun x => x ≠ old) }
  | none => w

/-- The continuation of `startCamera` run when the access request resolves
with stream `sid`: caches `granted`, binds the stream, activates the
camera, switches to camera mode (the commit of this `setStream` runs the
`[stream]`-keyed effect cleanup, stopping any replaced stream's tracks),
attaches the stream to the video element when mounted and waits for
playback readiness (failure there throws into the `catch` block), then
clears the upload-path state (`selectedImage`, `imagePreview`,
`scannedResult`) and finishes. -/
def startCameraResume (env : StartEnv) (s : ScannerState) (w : MediaWorld)
    (sid : Nat) (raced : Bool) : StartResult :=
  let prev := s.stream
  let s := { s with permissionState := PermState.granted }
  let w := { w with stored := some PermState.granted }
  let s := { s with
    stream := some sid
    isCameraActive := true
    scanMode := ScanMode.camera }
  let w := streamCleanupOnReplace prev w
  if env.videoPresent then
    let w := { w with videoSrc := some sid }
    if env.playOk then
      let s := { s with videoReady := true }
      let s := { s with
        selectedImage := none, imagePreview := none, scannedResult := none }
      { outcome := StartOutcome.ok,
        state := { s with isRequestingCamera := false }, world := w,
        racedTimeout := raced }
    else
      startCameraCatch s w "Error" "Could not start video playback" raced
  else
    let s := { s with
      selectedImage := none, imagePreview := none, scannedResult := none }
    { outcome := StartOutcome.ok,
      state := { s with isRequestingCamera := false }, world := w,
      racedTimeout := raced }

/-- The `startCamera` handler, uninterleaved: the pending phase, the support check, the
access request (raced against the 10-second timer only when the cached
permission state is not `granted`), then the resume continuation or the
`catch` block.  When the request never settles and no timer was armed, the
call suspends forever (`StartOutcome.never`) and the `finally` block never
runs. -/
def startCamera (env : StartEnv) (s : ScannerState) (w : MediaWorld) :
    StartResult :=
  let s := startCameraPending s
  if env.mediaSupported = false then
    startCameraCatch s w "Error" "Camera not supported in this browser" false
  else
    let useTimeout : Bool := s.permissionState ≠ PermState.granted
    match env.access with
    | AccessOutcome.grant =>
        let sid := w.nextId
        let w := streamArrivalWorld w
        startCameraResume env s w sid useTimeout
    | AccessOutcome.reject name msg => startCameraCatch s w name msg useTimeout
    | AccessOutcome.pending =>
        if useTimeout then startCameraCatch s w "Error" timedOutMsg true
        else { outcome := StartOutcome.never, state := s, world := w,
               racedTimeout := false }

/-- The video element as read by `capturePhoto`: intrinsic (native) stream
dimensions `videoWidth`/`videoHeight` (0 when unavailable), layout
dimensions `offsetWidth`/`offsetHeight`, and the current frame content. -/
structure VideoElem where
  videoWidth : Nat
  videoHeight : Nat
  offsetWidth : Nat
  offsetHeight : Nat
  frame : Nat
deriving DecidableEq, Repr

/-- The hidden `canvas` element: mutable dimensions plus the raster painted
by the last `drawImage` (source frame and draw dimensions). -/
structure Canvas where
  width : Nat
  height : Nat
  drawn : Option (Nat × Nat × Nat)
deriving DecidableEq, Repr

/-- JavaScript `a || b` on numbers, where `0` is falsy. -/
def jsOr (a b : Nat) : Nat := if a = 0 then b else a

/-- The call `canvas.toBlob(cb, mime, quality)`: when the encoder succeeds the blob
is the canvas raster at the canvas's current dimensions; otherwise the
callback receives `null`. -/
def toBlob (c : Canvas) (mime : String) (quality : ℚ) (encodeOk : Bool) :
    Option EncodedImage :=
  if encodeOk then
    some { width := c.width, height := c.height, mime := mime,
           quality := quality,
           data := (c.drawn.map (fun d => d.1)).getD 0 }
  else none

/-- Environment of one `capturePhoto` call: the mounted refs and whether
`getContext`, `drawImage` and the blob encoder succeed. -/
structure CaptureEnv where
  video : Option VideoElem
  canvas : Option Canvas
  contextOk : Bool
  drawOk : Bool
  encodeOk : Bool
deriving DecidableEq, Repr

/-- How a `capturePhoto` call ends. -/
inductive PhotoOutcome
  | captured (img : EncodedImage)
  | errNotReady
  | errNoContext
  | errDrawFailed
  | errEncodeFailed
deriving DecidableEq, Repr

/-- The observable interactions `capturePhoto` performs with the canvas,
video element and device stream, in order. -/
inductive CaptureEffect
  | getContext
  | setDims (w h : Nat)
  | draw (frame w h : Nat)
  | encode (w h : Nat)
deriving DecidableEq, Repr

/-- Result of a `capturePhoto` call: outcome, final hook state, final
browser world, the canvas after the call, and the effect trace. -/
structure CaptureResult where
  outcome : PhotoOutcome
  state : ScannerState
  world : MediaWorld
  canvas : Option Canvas
  effects : List CaptureEffect
deriving Repr

/-- The `capturePhoto` handler: early-returns with a not-ready error when either ref is
unmounted or the video is not ready; otherwise obtains the 2d context, sets
the canvas to the video's native dimensions (falling back to layout
dimensions, then to 640 by 480, via `||`), draws the frame, encodes it to
JPEG at quality 0.9, stores the resulting file and preview, and stops the
camera (`stopCamera` is invoked inside the blob callback). -/
def capturePhoto (env : CaptureEnv) (s : ScannerState) (w : MediaWorld) :
    CaptureResult :=
  match env.video, env.canvas with
  | some video, some canvas =>
    if s.videoReady then
      if env.contextOk then
        let wd := jsOr video.videoWidth (jsOr video.offsetWidth 640)
        let ht := jsOr video.videoHeight (jsOr video.offsetHeight 480)
        let canvas := { canvas with width := wd, height := ht }
        if env.drawOk then
          let canvas := { canvas with drawn := some (video.frame, wd, ht) }
          match toBlob canvas "image/jpeg" (9/10 : ℚ) env.encodeOk with
          | some img =>
            let s := { s with
              selectedImage := some
                (ImageFile.capturedFile "camera-capture.jpg" "image/jpeg" img)
              imagePreview := some img.data }
            let sw := stopCamera true s w
            { outcome := PhotoOutcome.captured img, state := sw.1,
              world := sw.2, canvas := some canvas,
              effects := [CaptureEffect.getContext,
                CaptureEffect.setDims wd ht,
                CaptureEffect.draw video.frame wd ht,
                CaptureEffect.encode wd ht] }
          | none =>
            { outcome := PhotoOutcome.errEncodeFailed, state := s, world := w,
              canvas := some canvas,
              effects := [CaptureEffect.getContext,
                CaptureEffect.setDims wd ht,
                CaptureEffect.draw video.frame wd ht,
                CaptureEffect.encode wd ht] }
        else
          { outcome := PhotoOutcome.errDrawFailed, state := s, world := w,
            canvas := some canvas,
            effects := [CaptureEffect.getContext,
              CaptureEffect.setDims wd ht] }
      else
        { outcome := PhotoOutcome.errNoContext, state := s, world := w,
          canvas := some canvas, effects := [CaptureEffect.getContext] }
    else
      { outcome := PhotoOutcome.errNotReady, state := s, world := w,
        canvas := some canvas, effects := [] }
  | _, _ =>
    { outcome := PhotoOutcome.errNotReady, state := s, world := w,
      canvas := env.canvas, effects := [] }

/-- One caller-level operation on the controller: a `startCamera` call
(with its environment) or a `stopCamera` call. -/
inductive CamOp
  | start (env : StartEnv)
  | stop (vp : Bool)
deriving Repr

/-- One caller-level operation applied to the configuration: each call runs
to completion (its end state includes the React commit of any `setStream`,
hence the `[stream]`-keyed cleanup) before the next begins. -/
def camStep (p : ScannerState × MediaWorld) : CamOp → ScannerState × MediaWorld
  | CamOp.start env =>
      let r := startCamera env p.1 p.2
      (r.state, r.world)
  | CamOp.stop vp => stopCamera vp p.1 p.2

/-- Run a sequence of guarded operations from a given configuration. -/
def runOps (p : ScannerState × MediaWorld) : List CamOp → ScannerState × MediaWorld
  | [] => p
  | op :: rest => runOps (camStep p op) rest

/-- Stream-ownership invariant: either no stream is open, or exactly one is
open and it is the one bound to the `stream` hook. -/
def StreamInv (p : ScannerState × MediaWorld) : Prop :=
  p.2.openStreams = [] ∨
    ∃ sid, p.2.openStreams = [sid] ∧ p.1.stream = some sid

/-! Concrete fixtures used to exercise the definitions. -/

/-- A start environment in which everything succeeds. -/
def envAllOk : StartEnv where
  mediaSupported := true
  access := AccessOutcome.grant
  videoPresent := true
  playOk := true

/-- A start environment in which the stream is granted but video playback
fails. -/
def envPlayFail : StartEnv where
  mediaSupported := true
  access := AccessOutcome.grant
  videoPresent := true
  playOk := false

/-- The initial hook state with the permission hint already `granted`. -/
def grantedState : ScannerState :=
  { initialState with permissionState := PermState.granted }

/-- A sample video element with native dimensions 1280 by 720. -/
def vidNative : VideoElem where
  videoWidth := 1280
  videoHeight := 720
  offsetWidth := 300
  offsetHeight := 200
  frame := 7

/-- A blank canvas element. -/
def blankCanvas : Canvas where
  width := 0
  height := 0
  drawn := none

/-- A capture environment in which everything succeeds. -/
def capEnvOk : CaptureEnv where
  video := some vidNative
  canvas := some blankCanvas
  contextOk := true
  drawOk := true
  encodeOk := true

/-- A capture environment with no mounted refs. -/
def capEnvNone : CaptureEnv where
  video := none
  canvas := none
  contextOk := true
  drawOk := true
  encodeOk := true

/-- A hook state of an active, ready session bound to stream 0. -/
def readyState : ScannerState :=
  { initialState with
    isCameraActive := true
    stream := some 0
    scanMode := ScanMode.camera
    videoReady := true
    permissionState := PermState.granted }

/-- The browser world matching `readyState`: stream 0 open and attached. -/
def readyWorld : MediaWorld where
  openStreams := [0]
  nextId := 1
  stored := some PermState.granted
  videoSrc := some 0

/-! Theorems settling the claims. -/

/-- C6: `stopCamera` is idempotent: a second call in succession is a no-op,
and any single call already leaves the stopped end state (stream cleared,
camera inactive, video not ready, no error); no error value is ever
produced. -/
theorem stopCamera_idempotent (vp : Bool) (s : ScannerState) (w : MediaWorld) :
    stopCamera vp (stopCamera vp s w).1 (stopCamera vp s w).2 =
      stopCamera vp s w ∧
    (stopCamera vp s w).1.stream = none ∧
    (stopCamera vp s w).1.isCameraActive = false ∧
    (stopCamera vp s w).1.videoReady = false ∧
    (stopCamera vp s w).1.cameraError = none := by
  cases hs : s.stream <;> cases vp <;> simp [stopCamera, hs]

/-- C7: when either ref is unmounted or the video is not ready,
`capturePhoto` returns the not-ready error, leaves the hook state, the
browser world and the canvas untouched, and performs no canvas, video or
stream interaction (empty effect trace). -/
theorem capturePhoto_notReady (env : CaptureEnv) (s : ScannerState)
    (w : MediaWorld)
    (h : env.video = none ∨ env.canvas = none ∨ s.videoReady = false) :
    capturePhoto env s w =
      { outcome := PhotoOutcome.errNotReady, state := s, world := w,
        canvas := env.canvas, effects := [] } := by
  cases hv : env.video <;> cases hc : env.canvas <;>
    simp [capturePhoto, hv, hc]
  rcases h with h | h | h
  · simp [hv] at h
  · simp [hc] at h
  · simp [h]

/-- C7 witness: `capturePhoto` with unmounted refs on the fresh component
state returns the not-ready error and changes nothing. -/
theorem capturePhoto_notReady_witness :
    (capEnvNone.video = none ∨ capEnvNone.canvas = none ∨
      initialState.videoReady = false) ∧
    capturePhoto capEnvNone initialState initialWorld =
      { outcome := PhotoOutcome.errNotReady, state := initialState,
        world := initialWorld, canvas := capEnvNone.canvas, effects := [] } :=
  ⟨Or.inl rfl,
    capturePhoto_notReady capEnvNone initialState initialWorld (Or.inl rfl)⟩

/-- C10: every `startCamera` call that returns normally clears the
upload-path state: the selected image file, the image preview and the
previous scan result are all reset to `none`. -/
theorem startCamera_ok_clears (env : StartEnv) (s : ScannerState)
    (w : MediaWorld)
    (h : (startCamera env s w).outcome = StartOutcome.ok) :
    (startCamera env s w).state.selectedImage = none ∧
    (startCamera env s w).state.imagePreview = none ∧
    (startCamera env s w).state.scannedResult = none := by
  cases hm : env.mediaSupported <;> cases ha : env.access <;>
    cases hv : env.videoPresent <;> cases hp : env.playOk <;>
    by_cases hperm : s.permissionState = PermState.granted <;>
    simp [startCamera, startCameraResume, startCameraCatch,
      startCameraPending, hm, ha, hv, hp, hperm] at h ⊢

/-- C10 witness: a fully successful start from a state holding an uploaded
image, a preview and a scan result clears all three. -/
theorem startCamera_ok_clears_witness :
    (startCamera envAllOk
      { grantedState with
        selectedImage := some (ImageFile.uploaded 5)
        imagePreview := some 3
        scannedResult := some 9 } initialWorld).outcome = StartOutcome.ok ∧
    ((startCamera envAllOk
      { grantedState with
        selectedImage := some (ImageFile.uploaded 5)
        imagePreview := some 3
        scannedResult := some 9 } initialWorld).state.selectedImage = none ∧
     (startCamera envAllOk
      { grantedState with
        selectedImage := some (ImageFile.uploaded 5)
        imagePreview := some 3
        scannedResult := some 9 } initialWorld).state.imagePreview = none ∧
     (startCamera envAllOk
      { grantedState with
        selectedImage := some (ImageFile.uploaded 5)
        imagePreview := some 3
        scannedResult := some 9 } initialWorld).state.scannedResult = none) :=
  ⟨rfl, startCamera_ok_clears _ _ _ rfl⟩

/-- C5: when the cached permission state is `granted` at the moment
`startCamera` is invoked, the access request is not raced against the
timeout timer, and (provided the device rejection itself does not carry the
controller timer's "timed out" wording) the call can never end with a
`Timeout`-classified error. -/
theorem startCamera_granted_noTimeout (env : StartEnv) (s : ScannerState)
    (w : MediaWorld)
    (hperm : s.permissionState = PermState.granted)
    (hmsg : ∀ name msg, env.access = AccessOutcome.reject name msg →
      containsTimedOut msg = false) :
    (startCamera env s w).racedTimeout = false ∧
    (startCamera env s w).outcome ≠ StartOutcome.err ErrClass.timedOut := by
  cases hm : env.mediaSupported <;> cases ha : env.access <;>
    cases hv : env.videoPresent <;> cases hp : env.playOk <;>
    simp [startCamera, startCameraResume, startCameraCatch,
      startCameraPending, hm, ha, hv, hp, hperm] <;>
    first
      | decide
      | (have hct := hmsg _ _ ha
         simp [classify, hct]
         split_ifs <;> simp)

/-- C5 witness: with the hint `granted` and a successful grant, the timeout
race is not armed and no timeout error occurs. -/
theorem startCamera_granted_noTimeout_witness :
    grantedState.permissionState = PermState.granted ∧
    ((startCamera envAllOk grantedState initialWorld).racedTimeout = false ∧
     (startCamera envAllOk grantedState initialWorld).outcome ≠
        StartOutcome.err ErrClass.timedOut) :=
  ⟨rfl, startCamera_granted_noTimeout envAllOk grantedState initialWorld rfl
    (fun name msg h => by cases h)⟩

/-- C8: a successful `capturePhoto` snapshots at the video's native
resolution when it is available, reaches the 640 by 480 default only when
neither native nor layout dimensions are available, and encodes to JPEG at
the fixed quality factor 0.9. -/
theorem capturePhoto_native_jpeg (env : CaptureEnv) (s : ScannerState)
    (w : MediaWorld) (v : VideoElem) (img : EncodedImage)
    (hv : env.video = some v)
    (h : (capturePhoto env s w).outcome = PhotoOutcome.captured img) :
    (v.videoWidth ≠ 0 → img.width = v.videoWidth) ∧
    (v.videoHeight ≠ 0 → img.height = v.videoHeight) ∧
    (v.videoWidth = 0 ∧ v.offsetWidth = 0 → img.width = 640) ∧
    (v.videoHeight = 0 ∧ v.offsetHeight = 0 → img.height = 480) ∧
    img.mime = "image/jpeg" ∧ img.quality = 9 / 10 := by
  cases hc : env.canvas <;> simp [capturePhoto, hv, hc] at h
  by_cases hready : s.videoReady <;> simp [hready] at h
  by_cases hctx : env.contextOk <;> simp [hctx] at h
  by_cases hdraw : env.drawOk <;> simp [hdraw] at h
  by_cases henc : env.encodeOk <;> simp [henc, toBlob] at h
  simp [← h, jsOr]
  constructor
  · intro h0; simp [h0]
  constructor
  · intro h0; simp [h0]
  constructor
  · intro h0 h1; simp [h0, h1]
  · intro h0 h1; simp [h0, h1]

/-- C8 witness: capturing from a 1280 by 720 video uses the native
dimensions and JPEG quality 0.9. -/
theorem capturePhoto_native_jpeg_witness :
    (vidNative.videoWidth ≠ 0 →
      ({ width := 1280, height := 720, mime := "image/jpeg",
         quality := 9 / 10, data := 7 } : EncodedImage).width =
        vidNative.videoWidth) ∧
    (vidNative.videoHeight ≠ 0 →
      ({ width := 1280, height := 720, mime := "image/jpeg",
         quality := 9 / 10, data := 7 } : EncodedImage).height =
        vidNative.videoHeight) ∧
    (vidNative.videoWidth = 0 ∧ vidNative.offsetWidth = 0 →
      ({ width := 1280, height := 720, mime := "image/jpeg",
         quality := 9 / 10, data := 7 } : EncodedImage).width = 640) ∧
    (vidNative.videoHeight = 0 ∧ vidNative.offsetHeight = 0 →
      ({ width := 1280, height := 720, mime := "image/jpeg",
         quality := 9 / 10, data := 7 } : EncodedImage).height = 480) ∧
    ({ width := 1280, height := 720, mime := "image/jpeg",
       quality := 9 / 10, data := 7 } : EncodedImage).mime = "image/jpeg" ∧
    ({ width := 1280, height := 720, mime := "image/jpeg",
       quality := 9 / 10, data := 7 } : EncodedImage).quality = 9 / 10 :=
  capturePhoto_native_jpeg capEnvOk readyState readyWorld vidNative
    { width := 1280, height := 720, mime := "image/jpeg",
      quality := 9 / 10, data := 7 } rfl rfl

/-- C9: round-trip — every captured frame's declared width and height equal
the dimensions that were set on the encoding canvas, used to draw the video
frame onto it, and in effect at encode time. -/
theorem capturePhoto_frame_dims (env : CaptureEnv) (s : ScannerState)
    (w : MediaWorld) (img : EncodedImage)
    (h : (capturePhoto env s w).outcome = PhotoOutcome.captured img) :
    ∃ c, (capturePhoto env s w).canvas = some c ∧
      c.width = img.width ∧ c.height = img.height ∧
      (∃ fr, c.drawn = some (fr, img.width, img.height)) ∧
      CaptureEffect.setDims img.width img.height ∈
        (capturePhoto env s w).effects ∧
      CaptureEffect.encode img.width img.height ∈
        (capturePhoto env s w).effects := by
  cases hv : env.video <;> cases hc : env.canvas <;>
    simp [capturePhoto, hv, hc] at h ⊢
  by_cases hready : s.videoReady <;> simp [hready] at h ⊢
  by_cases hctx : env.contextOk <;> simp [hctx] at h ⊢
  by_cases hdraw : env.drawOk <;> simp [hdraw] at h ⊢
  by_cases henc : env.encodeOk <;> simp [henc, toBlob] at h ⊢
  simp [← h]

/-- C9 witness: the frame captured from the sample ready session declares
the canvas dimensions used to draw and encode it. -/
theorem capturePhoto_frame_dims_witness :
    ∃ c, (capturePhoto capEnvOk readyState readyWorld).canvas = some c ∧
      c.width = 1280 ∧ c.height = 720 ∧
      (∃ fr, c.drawn = some (fr, 1280, 720)) ∧
      CaptureEffect.setDims 1280 720 ∈
        (capturePhoto capEnvOk readyState readyWorld).effects ∧
      CaptureEffect.encode 1280 720 ∈
        (capturePhoto capEnvOk readyState readyWorld).effects := by
  have h := capturePhoto_frame_dims capEnvOk readyState readyWorld
    { width := 1280, height := 720, mime := "image/jpeg",
      quality := 9 / 10, data := 7 } rfl
  simpa using h

/-- C4 counterexample: at a concrete ready session, a successful
`capturePhoto` does NOT leave the stream open and the session ready — it
clears the stream binding, deactivates the camera and stops the open
stream, refuting the claim that capture leaves stopping to the caller. -/
theorem capturePhoto_keepalive_counterexample :
    (capturePhoto capEnvOk readyState readyWorld).outcome =
      PhotoOutcome.captured
        { width := 1280, height := 720, mime := "image/jpeg",
          quality := 9 / 10, data := 7 } ∧
    (capturePhoto capEnvOk readyState readyWorld).state.stream = none ∧
    (capturePhoto capEnvOk readyState readyWorld).state.isCameraActive =
      false ∧
    (capturePhoto capEnvOk readyState readyWorld).state.videoReady = false ∧
    (capturePhoto capEnvOk readyState readyWorld).world.openStreams = [] :=
  ⟨rfl, rfl, rfl, rfl, rfl⟩

/-- C4 (amended): `capturePhoto` itself stops the session after every
successful capture — the stop-after-capture policy is hard-coded inside the
capture operation (`stopCamera` is invoked in the blob callback), not left
to the caller: the owned stream's tracks are stopped, the stream binding is
cleared and the camera is deactivated. -/
theorem capturePhoto_stops_session (env : CaptureEnv) (s : ScannerState)
    (w : MediaWorld) (v : VideoElem) (c : Canvas)
    (hv : env.video = some v) (hc : env.canvas = some c)
    (hready : s.videoReady = true) (hctx : env.contextOk = true)
    (hdraw : env.drawOk = true) (henc : env.encodeOk = true) :
    (∃ img, (capturePhoto env s w).outcome = PhotoOutcome.captured img) ∧
    (capturePhoto env s w).state.stream = none ∧
    (capturePhoto env s w).state.isCameraActive = false ∧
    (capturePhoto env s w).state.videoReady = false ∧
    (capturePhoto env s w).state.scanMode = ScanMode.upload ∧
    ∀ sid, s.stream = some sid →
      sid ∉ (capturePhoto env s w).world.openStreams := by
  cases hs : s.stream <;>
    simp [capturePhoto, hv, hc, hready, hctx, hdraw, henc, toBlob,
      stopCamera, hs, List.mem_filter]

/-- C4 amended witness: capturing at the sample ready session succeeds and
ends with the session stopped and stream 0 released. -/
theorem capturePhoto_stops_session_witness :
    ((∃ img, (capturePhoto capEnvOk readyState readyWorld).outcome =
        PhotoOutcome.captured img) ∧
     (capturePhoto capEnvOk readyState readyWorld).state.stream = none ∧
     (capturePhoto capEnvOk readyState readyWorld).state.isCameraActive =
       false ∧
     (capturePhoto capEnvOk readyState readyWorld).state.videoReady = false ∧
     (capturePhoto capEnvOk readyState readyWorld).state.scanMode =
       ScanMode.upload ∧
     ∀ sid, readyState.stream = some sid →
       sid ∉ (capturePhoto capEnvOk readyState readyWorld).world.openStreams) :=
  capturePhoto_stops_session capEnvOk readyState readyWorld vidNative
    blankCanvas rfl rfl rfl rfl rfl rfl

/-- The §5 cancellation scenario executed exactly as the code runs it:
`startCamera` performs its synchronous prefix and suspends on the access
request, `stopCamera` is called while the request is pending, and the
request then resolves with fresh stream 0, whose arrival opens the stream
and runs `startCamera`'s continuation on the then-current state. -/
def lateResolveScenario : StartResult :=
  let s1 := startCameraPending grantedState
  let sw := stopCamera false s1 initialWorld
  let sid := sw.2.nextId
  let w3 := streamArrivalWorld sw.2
  startCameraResume envAllOk sw.1 w3 sid false

/-- C2: evaluating the code on the stop-while-pending scenario shows the
late-resolving stream is NOT released: it stays open, is bound to the
stale session, and the controller ends active and ready. -/
theorem lateStream_bound_after_stop :
    lateResolveScenario.world.openStreams = [0] ∧
    lateResolveScenario.state.stream = some 0 ∧
    lateResolveScenario.state.isCameraActive = true ∧
    lateResolveScenario.state.videoReady = true ∧
    lateResolveScenario.outcome = StartOutcome.ok :=
  ⟨rfl, rfl, rfl, rfl, rfl⟩

/-- C3: evaluating the code on a start whose stream is granted but whose
video playback fails shows the partially acquired stream is NOT released:
the call returns with a classified error, yet stream 0 is still open and
still bound to the `stream` hook while the camera is marked inactive. -/
theorem startCamera_playFail_leaks :
    (startCamera envPlayFail grantedState initialWorld).outcome =
      StartOutcome.err
        (ErrClass.generic "Could not start video playback") ∧
    (startCamera envPlayFail grantedState initialWorld).world.openStreams =
      [0] ∧
    (startCamera envPlayFail grantedState initialWorld).state.stream =
      some 0 ∧
    (startCamera envPlayFail grantedState initialWorld).state.isCameraActive =
      false :=
  ⟨rfl, rfl, rfl, rfl⟩

/-- C1 counterexample: a second successful `startCamera` call, invoked
while the first session is active, does not first stop the previous
session's stream — at the instant its access request resolves (the second
call's `streamArrivalWorld` step, before React commits the `setStream`
replacement) both streams 0 and 1 are open at once.  Stream 0 is stopped
only afterwards, by the `[stream]`-keyed effect cleanup at commit, so the
call ends bound to stream 1 with stream 0 closed. -/
theorem startCamera_two_streams_counterexample :
    (startCamera envAllOk grantedState initialWorld).outcome =
      StartOutcome.ok ∧
    (startCamera envAllOk grantedState initialWorld).world.openStreams =
      [0] ∧
    (streamArrivalWorld
      (startCamera envAllOk grantedState initialWorld).world).openStreams =
        [0, 1] ∧
    (startCamera envAllOk
      (startCamera envAllOk grantedState initialWorld).state
      (startCamera envAllOk grantedState initialWorld).world).outcome =
        StartOutcome.ok ∧
    (startCamera envAllOk
      (startCamera envAllOk grantedState initialWorld).state
      (startCamera envAllOk grantedState initialWorld).world).world.openStreams
        = [1] ∧
    (startCamera envAllOk
      (startCamera envAllOk grantedState initialWorld).state
      (startCamera envAllOk grantedState initialWorld).world).state.stream =
        some 1 :=
  ⟨rfl, rfl, rfl, rfl, rfl, rfl⟩

/-- Stopping the camera always leaves zero open streams, given the
ownership invariant. -/
theorem stopCamera_closes_all (vp : Bool) (s : ScannerState) (w : MediaWorld)
    (h : StreamInv (s, w)) : (stopCamera vp s w).2.openStreams = [] := by
  have h' : w.openStreams = [] ∨
      ∃ sid, w.openStreams = [sid] ∧ s.stream = some sid := h
  rcases h' with h' | ⟨sid, hw, hs⟩
  · cases hst : s.stream <;> cases vp <;> simp [stopCamera, hst, h']
  · cases vp <;> simp [stopCamera, hs, hw]

/-- On every path through the continuation, the new stream ends up bound,
and the end-state open streams are the incoming ones with any replaced
stream's tracks stopped by the commit-time cleanup. -/
theorem startCameraResume_stream (env : StartEnv) (s : ScannerState)
    (w : MediaWorld) (sid : Nat) (raced : Bool) :
    (startCameraResume env s w sid raced).state.stream = some sid ∧
    (startCameraResume env s w sid raced).world.openStreams =
      (streamCleanupOnReplace s.stream w).openStreams := by
  cases hst : s.stream <;> cases hv : env.videoPresent <;>
    cases hp : env.playOk <;>
    simp [startCameraResume, streamCleanupOnReplace, startCameraCatch,
      hst, hv, hp]

/-- Every `startCamera` call preserves the ownership invariant: failure
paths leave the open-stream set and the stream hook unchanged, and the
grant path opens one fresh stream and closes any replaced one by the
commit-time cleanup. -/
theorem startCamera_preserves_inv (env : StartEnv) (s : ScannerState)
    (w : MediaWorld) (h : StreamInv (s, w)) :
    StreamInv ((startCamera env s w).state, (startCamera env s w).world) := by
  have h' : w.openStreams = [] ∨
      ∃ sid, w.openStreams = [sid] ∧ s.stream = some sid := h
  cases hm : env.mediaSupported with
  | false =>
      rcases h' with h' | ⟨sid, hw, hs⟩
      · exact Or.inl (by
          simp [startCamera, startCameraPending, startCameraCatch, hm, h'])
      · exact Or.inr ⟨sid,
          by simp [startCamera, startCameraPending, startCameraCatch, hm, hw],
          by simp [startCamera, startCameraPending, startCameraCatch, hm, hs]⟩
  | true =>
      cases ha : env.access with
      | grant =>
          have hr := startCameraResume_stream env (startCameraPending s)
            (streamArrivalWorld w) w.nextId
            (decide ((startCameraPending s).permissionState ≠
              PermState.granted))
          have hdef : startCamera env s w =
              startCameraResume env (startCameraPending s)
                (streamArrivalWorld w) w.nextId
                (decide ((startCameraPending s).permissionState ≠
                  PermState.granted)) := by
            simp [startCamera, startCameraPending, hm, ha]
          rw [hdef]
          rcases h' with h' | ⟨sid, hw, hs⟩
          · cases hst : s.stream with
            | none =>
                refine Or.inr ⟨w.nextId, ?_, hr.1⟩
                rw [hr.2]
                simp [streamCleanupOnReplace, streamArrivalWorld,
                  startCameraPending, hst, h']
            | some old =>
                by_cases hid : w.nextId = old
                · refine Or.inl ?_
                  rw [hr.2]
                  simp [streamCleanupOnReplace, streamArrivalWorld,
                    startCameraPending, hst, h', hid]
                · refine Or.inr ⟨w.nextId, ?_, hr.1⟩
                  rw [hr.2]
                  simp [streamCleanupOnReplace, streamArrivalWorld,
                    startCameraPending, hst, h', hid]
          · by_cases hid : w.nextId = sid
            · refine Or.inl ?_
              rw [hr.2]
              simp [streamCleanupOnReplace, streamArrivalWorld,
                startCameraPending, hs, hw, hid]
            · refine Or.inr ⟨w.nextId, ?_, hr.1⟩
              rw [hr.2]
              simp [streamCleanupOnReplace, streamArrivalWorld,
                startCameraPending, hs, hw, hid]
      | reject name msg =>
          rcases h' with h' | ⟨sid, hw, hs⟩
          · refine Or.inl ?_
            simp only [startCamera, startCameraPending, startCameraCatch,
              hm, ha]
            split_ifs <;> simp [h']
          · refine Or.inr ⟨sid, ?_, ?_⟩
            · simp only [startCamera, startCameraPending, startCameraCatch,
                hm, ha]
              split_ifs <;> simp [hw]
            · simp only [startCamera, startCameraPending, startCameraCatch,
                hm, ha]
              split_ifs <;> simp [hs]
      | pending =>
          rcases h' with h' | ⟨sid, hw, hs⟩
          · refine Or.inl ?_
            simp only [startCamera, startCameraPending, startCameraCatch,
              hm, ha]
            split_ifs <;> simp [h']
          · refine Or.inr ⟨sid, ?_, ?_⟩
            · simp only [startCamera, startCameraPending, startCameraCatch,
                hm, ha]
              split_ifs <;> simp [hw]
            · simp only [startCamera, startCameraPending, startCameraCatch,
                hm, ha]
              split_ifs <;> simp [hs]

/-- One operation preserves the ownership invariant. -/
theorem camStep_preserves_inv (p : ScannerState × MediaWorld) (op : CamOp)
    (h : StreamInv p) : StreamInv (camStep p op) := by
  cases op with
  | start env =>
      simpa [camStep] using startCamera_preserves_inv env p.1 p.2 h
  | stop vp =>
      exact Or.inl (stopCamera_closes_all vp p.1 p.2 h)

/-- Every run preserves the ownership invariant. -/
theorem runOps_preserves_inv (ops : List CamOp)
    (p : ScannerState × MediaWorld) (h : StreamInv p) :
    StreamInv (runOps p ops) := by
  induction ops generalizing p with
  | nil => exact h
  | cons op rest ih => exact ih _ (camStep_preserves_inv p op h)

/-- C1 (amended): at every call boundary — after each completed
`startCamera`/`stopCamera` call, including the React commit of its
`setStream` update — at most one device stream is open, for every sequence
of calls: a start that replaces an active session opens and binds the new
stream first and only then has the previous stream stopped by the
`[stream]`-keyed effect cleanup, so within such a call there is a transient
instant with two open streams (see the counterexample), but the replaced
stream never outlives the call. -/
theorem camera_at_most_one_stream (ops : List CamOp) :
    (runOps (initialState, initialWorld) ops).2.openStreams.length ≤ 1 := by
  have h := runOps_preserves_inv ops (initialState, initialWorld)
    (Or.inl rfl)
  rcases h with h | ⟨sid, hw, _⟩
  · simp [h]
  · simp [hw]

end FoodScanner
